import Mathlib

/-!
Shallow embedding of `src/jpegutils.cpp` (Motion's JPEG utility module) and
proofs of the specification's claims about it.

Conventions of the embedding:
* machine bytes are `Nat` values (each write produces a value already reduced
  with `&&& 0xFF`-style masking, exactly as the C code does before the
  `u_char` cast);
* a buffer write is a pair `(offset, value)` of the absolute byte offset in
  the marker buffer and the value stored there; a serialization routine
  returns the list of writes it performs, in program order (later writes to
  the same offset shadow earlier ones, as in memory);
* the `tiff_writing` cursor keeps `buf` as the absolute offset of the current
  directory-entry write position (the C code's `into->buf - marker`) and
  `data_offset` relative to `base = marker + 6`, exactly as the source does;
* every out-of-line payload write additionally produces an `OolEvent` record
  carrying the free offset at the moment of the write and the offset where
  the payload actually starts, so that the alignment invariant can be stated.
-/

namespace Jpegutils

/-- TIFF tag ids, from the `#define`s at the top of `jpegutils.cpp`. -/
def TIFF_TAG_IMAGE_DESCRIPTION : Nat := 0x010E

def TIFF_TAG_DATETIME : Nat := 0x0132

def TIFF_TAG_EXIF_IFD : Nat := 0x8769

def TIFF_TAG_TZ_OFFSET : Nat := 0x882A

def EXIF_TAG_EXIF_VERSION : Nat := 0x9000

def EXIF_TAG_ORIGINAL_DATETIME : Nat := 0x9003

def EXIF_TAG_SUBJECT_AREA : Nat := 0x9214

def EXIF_TAG_ORIGINAL_DATETIME_SS : Nat := 0x9291

def TIFF_TYPE_ASCII : Nat := 2

def TIFF_TYPE_USHORT : Nat := 3

/-- The fixed 14-byte EXIF + TIFF header, `exif_marker_start` in the source:
`"Exif\0\0"`, `"MM"`, `0x002A`, offset 8 to the first IFD. -/
def exif_marker_start : List Nat :=
  [69, 120, 105, 102, 0, 0, 77, 77, 0, 42, 0, 0, 0, 8]

/-- The fixed 12-byte EXIF version directory entry (`exif_version_tag`). -/
def exif_version_tag : List Nat :=
  [0x90, 0x00, 0x00, 0x07, 0x00, 0x00, 0x00, 0x04, 0x30, 0x32, 0x32, 0x30]

/-- The first 8 bytes of the EXIF sub-IFD pointer entry (`exif_subifd_tag`). -/
def exif_subifd_tag : List Nat :=
  [0x87, 0x69, 0x00, 0x04, 0x00, 0x00, 0x00, 0x01]

/-- The 12-byte time-zone offset entry template (`exif_tzoffset_tag`);
bytes 8–9 are overwritten with the actual signed offset afterwards. -/
def exif_tzoffset_tag : List Nat :=
  [0x88, 0x2A, 0x00, 0x08, 0x00, 0x00, 0x00, 0x01, 0, 0, 0, 0]

/-- `put_uint16`: big-endian 16-bit store at absolute offset `off`. -/
def put_uint16 (off v : Nat) : List (Nat × Nat) :=
  [(off, (v &&& 0xFF00) >>> 8), (off + 1, v &&& 0x00FF)]

/-- `put_sint16`: the C code masks the (two's-complement) `int` down to its
low 16 bits and stores them big-endian; `v % 65536` on `Int` (Lean's `emod`,
always non-negative) is exactly those low 16 bits. -/
def put_sint16 (off : Nat) (v : Int) : List (Nat × Nat) :=
  put_uint16 off (v % 65536).toNat

/-- `put_uint32`: big-endian 32-bit store at absolute offset `off`. -/
def put_uint32 (off v : Nat) : List (Nat × Nat) :=
  [(off, (v &&& 0xFF000000) >>> 24), (off + 1, (v &&& 0x00FF0000) >>> 16),
   (off + 2, (v &&& 0x0000FF00) >>> 8), (off + 3, v &&& 0x000000FF)]

/-- A `memcpy` of `data` to consecutive offsets starting at `off`. -/
def memWrites (off : Nat) : List Nat → List (Nat × Nat)
  | [] => []
  | b :: rest => (off, b) :: memWrites (off + 1) rest

/-- The `struct tiff_writing` cursor.  `buf` is the absolute offset of the
current directory write position in the marker buffer (the C `into->buf`
pointer minus the `marker` base); `data_offset` is relative to
`base = marker + 6`, as in the source. -/
structure TiffWriting where
  buf : Nat
  data_offset : Nat
deriving DecidableEq, Repr

/-- One out-of-line payload write: `before` is `into->data_offset` when the
write began, `start` the offset (relative to `base`) where the payload bytes
begin.  `fromDirentry` is `true` for `put_direntry`'s out-of-line branch and
`false` for `put_subjectarea`. -/
structure OolEvent where
  fromDirentry : Bool
  before : Nat
  start : Nat
deriving DecidableEq, Repr

/-- Result of a serialization step: updated cursor, writes, out-of-line
events, in program order. -/
abbrev PutResult := TiffWriting × List (Nat × Nat) × List OolEvent

/-- Number of zero bytes the alignment loop
`while ((offset & 0x03) != 0) { base[offset] = 0; offset++; }` emits:
the closed form of that loop. -/
def pad4 (o : Nat) : Nat := (4 - o % 4) % 4

/-- `put_direntry`: a payload of at most 4 bytes is stored inline in the
4-byte value slot (zero-filled first); a longer payload is stored
out-of-line at the 4-byte-aligned free offset, with the offset stored in the
value slot.  `put_direntry` itself does not advance `buf` (its callers do). -/
def put_direntry (into : TiffWriting) (data : List Nat) : PutResult :=
  if data.length ≤ 4 then
    (into, memWrites into.buf (data ++ List.replicate (4 - data.length) 0), [])
  else
    ({ into with data_offset := into.data_offset + pad4 into.data_offset + data.length },
     memWrites (6 + into.data_offset) (List.replicate (pad4 into.data_offset) 0)
       ++ put_uint32 into.buf (into.data_offset + pad4 into.data_offset)
       ++ memWrites (6 + (into.data_offset + pad4 into.data_offset)) data,
     [⟨true, into.data_offset, into.data_offset + pad4 into.data_offset⟩])

/-- `put_stringentry`: writes a 12-byte ASCII directory entry for `str`
(`stringlength = strlen + 1` when `with_nul`; the copied payload then
includes the terminating NUL) and advances `buf` by 12. -/
def put_stringentry (into : TiffWriting) (tag : Nat) (str : List Nat)
    (with_nul : Bool) : PutResult :=
  let data := str ++ (if with_nul then [0] else [])
  let hdr := put_uint16 into.buf tag ++ put_uint16 (into.buf + 2) TIFF_TYPE_ASCII
    ++ put_uint32 (into.buf + 4) data.length
  let r := put_direntry { into with buf := into.buf + 8 } data
  ({ r.1 with buf := r.1.buf + 4 }, hdr ++ r.2.1, r.2.2)

/-- `ctx_coord`, as used by `put_subjectarea`. -/
structure Coord where
  x : Nat
  y : Nat
  width : Nat
  height : Nat
deriving DecidableEq, Repr

/-- `put_subjectarea`: 12-byte SubjectArea entry whose value slot holds
`into->data_offset`, followed by the four 16-bit box values stored
out-of-line at exactly `into->data_offset` (note: no alignment loop here,
unlike `put_direntry`). -/
def put_subjectarea (into : TiffWriting) (box : Coord) : PutResult :=
  ({ into with buf := into.buf + 12, data_offset := into.data_offset + 8 },
   put_uint16 into.buf EXIF_TAG_SUBJECT_AREA
     ++ put_uint16 (into.buf + 2) TIFF_TYPE_USHORT
     ++ put_uint32 (into.buf + 4) 4
     ++ put_uint32 (into.buf + 8) into.data_offset
     ++ put_uint16 (6 + into.data_offset) box.x
     ++ put_uint16 (6 + into.data_offset + 2) box.y
     ++ put_uint16 (6 + into.data_offset + 4) box.width
     ++ put_uint16 (6 + into.data_offset + 6) box.height,
   [⟨false, into.data_offset, into.data_offset⟩])

/-- The optional metadata fields of `ctx_exif_info` after `jpgutl_exif_date`
has populated them: the description and timestamp strings are byte lists
(without their terminating NUL, which `strlen` does not count), the region
box is the `ctx_coord` pointer, and `tm_gmtoff` the timezone offset in
seconds from `timestamp_tm`. -/
structure ExifFields where
  description : Option (List Nat)
  datetime : Option (List Nat)
  subtime : Option (List Nat)
  box : Option Coord
  tm_gmtoff : Int

/-- The four counter fields of `ctx_exif_info` used by the inventory pass. -/
structure ExifCounts where
  ifd0_tagcount : Nat
  ifd1_tagcount : Nat
  datasize : Nat
  ifds_size : Nat
deriving DecidableEq, Repr

/-- Counters all zero: what the `memset` in `jpgutl_exif` was evidently
intended to establish (see the layout analysis below for what it actually
clears). -/
def exifZero : ExifCounts := ⟨0, 0, 0, 0⟩

/-- `jpgutl_exif_tags`: the inventory pass.  Starting from the counter
values `c0` already in the struct, it increments the tag counts and
`datasize` for each populated field and then assigns `ifds_size`. -/
def jpgutl_exif_tags (f : ExifFields) (c0 : ExifCounts) : ExifCounts :=
  let c1 := match f.description with
    | some d => { c0 with ifd0_tagcount := c0.ifd0_tagcount + 1,
                          datasize := c0.datasize + (5 + d.length) }
    | none => c0
  let c2 := match f.datetime with
    | some dt => { c1 with ifd0_tagcount := c1.ifd0_tagcount + 1 + 1,
                           ifd1_tagcount := c1.ifd1_tagcount + 1,
                           datasize := c1.datasize + 2 * (5 + dt.length) }
    | none => c1
  let c3 := match f.subtime with
    | some st => { c2 with ifd1_tagcount := c2.ifd1_tagcount + 1,
                           datasize := c2.datasize + (5 + st.length) }
    | none => c2
  let c4 := match f.box with
    | some _ => { c3 with ifd1_tagcount := c3.ifd1_tagcount + 1,
                          datasize := c3.datasize + 2 * 4 }
    | none => c3
  let c5 := if 0 < c4.ifd1_tagcount then
      { c4 with ifd0_tagcount := c4.ifd0_tagcount + 1,
                ifd1_tagcount := c4.ifd1_tagcount + 1 }
    else c4
  { c5 with ifds_size :=
      (if 0 < c5.ifd1_tagcount then 12 * c5.ifd1_tagcount + 6 else 0) +
      (if 0 < c5.ifd0_tagcount then 12 * c5.ifd0_tagcount + 6 else 0) }

/-- Sequencing of serialization steps: thread the cursor, append the writes
and events. -/
def seqPut (s : PutResult) (op : TiffWriting → PutResult) : PutResult :=
  let r := op s.1
  (r.1, s.2.1 ++ r.2.1, s.2.2 ++ r.2.2)

/-- The leading 2-byte tag-count store of an IFD (`put_uint16(buf, n)`,
`buf += 2`). -/
def entry_count (w : TiffWriting) (n : Nat) : PutResult :=
  ({ w with buf := w.buf + 2 }, put_uint16 w.buf n, [])

/-- The EXIF sub-IFD pointer entry in IFD0: copy `exif_subifd_tag`, then
store `ifd1_offset = 8 + 6 + 12 * ifd0_tagcount` in its value slot. -/
def entry_subifd (w : TiffWriting) (ifd0_tagcount : Nat) : PutResult :=
  ({ w with buf := w.buf + 12 },
   memWrites w.buf exif_subifd_tag
     ++ put_uint32 (w.buf + 8) (8 + 6 + 12 * ifd0_tagcount), [])

/-- The time-zone offset entry in IFD0: copy `exif_tzoffset_tag`, then
overwrite its value slot with `(int)(tm_gmtoff / 3600)` (C `/` on `int`
truncates toward zero, i.e. `Int.tdiv`). -/
def entry_tzoffset (w : TiffWriting) (gmtoff : Int) : PutResult :=
  ({ w with buf := w.buf + 12 },
   memWrites w.buf exif_tzoffset_tag
     ++ put_sint16 (w.buf + 8) (Int.tdiv gmtoff 3600), [])

/-- The trailing 4-byte next-IFD offset (always 0). -/
def entry_nextifd (w : TiffWriting) : PutResult :=
  ({ w with buf := w.buf + 4 }, put_uint32 w.buf 0, [])

/-- The head of IFD1: tag count followed by the copied 12-byte
`exif_version_tag` entry (`buf += 14`). -/
def entry_ifd1_head (w : TiffWriting) (n : Nat) : PutResult :=
  ({ w with buf := w.buf + 14 },
   put_uint16 w.buf n ++ memWrites (w.buf + 2) exif_version_tag, [])

/-- `jpgutl_exif_writeifd0`: tag count, then the present entries in source
order (ImageDescription, DateTime, sub-IFD pointer when IFD1 is non-empty,
TimeZoneOffset), then the zero next-IFD offset. -/
def jpgutl_exif_writeifd0 (f : ExifFields) (c : ExifCounts)
    (w : TiffWriting) : PutResult :=
  let s := entry_count w c.ifd0_tagcount
  let s := match f.description with
    | some d => seqPut s (fun w => put_stringentry w TIFF_TAG_IMAGE_DESCRIPTION d true)
    | none => s
  let s := match f.datetime with
    | some dt => seqPut s (fun w => put_stringentry w TIFF_TAG_DATETIME dt true)
    | none => s
  let s := if 0 < c.ifd1_tagcount then
      seqPut s (fun w => entry_subifd w c.ifd0_tagcount)
    else s
  let s := match f.datetime with
    | some _ => seqPut s (fun w => entry_tzoffset w f.tm_gmtoff)
    | none => s
  seqPut s entry_nextifd

/-- `jpgutl_exif_writeifd1`: emitted only when `ifd1_tagcount > 0`; tag
count and version entry, then DateTimeOriginal, SubjectArea and
SubsecTimeOriginal (no NUL) in source order, then the zero next-IFD
offset. -/
def jpgutl_exif_writeifd1 (f : ExifFields) (c : ExifCounts)
    (w : TiffWriting) : PutResult :=
  if 0 < c.ifd1_tagcount then
    let s := entry_ifd1_head w c.ifd1_tagcount
    let s := match f.datetime with
      | some dt => seqPut s (fun w => put_stringentry w EXIF_TAG_ORIGINAL_DATETIME dt true)
      | none => s
    let s := match f.box with
      | some b => seqPut s (fun w => put_subjectarea w b)
      | none => s
    let s := match f.subtime with
      | some st => seqPut s (fun w => put_stringentry w EXIF_TAG_ORIGINAL_DATETIME_SS st false)
      | none => s
    seqPut s entry_nextifd
  else (w, [], [])

/-- `buffer_size = 14 + ifds_size + datasize` (lines 356–357). -/
def jpgutl_exif_buffer_size (c : ExifCounts) : Nat :=
  14 + c.ifds_size + c.datasize

/-- The observable result of `jpgutl_exif`: the returned marker length and
the writes/events of the serialization pass. -/
structure ExifResult where
  marker_len : Nat
  writes : List (Nat × Nat)
  events : List OolEvent

/-- `jpgutl_exif`: run the inventory pass from the counter values `init`
(the values left in the freshly allocated struct; the intended behaviour
passes `exifZero`), return length 0 when `ifds_size` is 0, otherwise write
the 14-byte header and the two IFDs.  The cursor starts at
`base = marker + 6`, `buf = marker + 14`, `data_offset = 8 + ifds_size`;
the returned `marker_len` is `data_offset + 6` after serialization. -/
def jpgutl_exif (init : ExifCounts) (f : ExifFields) : ExifResult :=
  let c := jpgutl_exif_tags f init
  if c.ifds_size = 0 then ⟨0, [], []⟩
  else
    let w0 : TiffWriting := ⟨14, 8 + c.ifds_size⟩
    let s := jpgutl_exif_writeifd0 f c w0
    let s := seqPut s (jpgutl_exif_writeifd1 f c)
    ⟨s.1.data_offset + 6, memWrites 0 exif_marker_start ++ s.2.1, s.2.2⟩

/-- `put_jpeg_exif`: calls `jpgutl_exif` and emits an APP1 marker via
`jpeg_write_marker` only when the returned length is positive; `none`
models "no APP1 marker emitted". -/
def put_jpeg_exif (init : ExifCounts) (f : ExifFields) : Option ExifResult :=
  let r := jpgutl_exif init f
  if 0 < r.marker_len then some r else none

/-- The tag ids of the 12-byte entries of IFD0, in the order
`jpgutl_exif_writeifd0` emits them. -/
def ifd0_tags (f : ExifFields) (c : ExifCounts) : List Nat :=
  (if f.description.isSome then [TIFF_TAG_IMAGE_DESCRIPTION] else [])
    ++ (if f.datetime.isSome then [TIFF_TAG_DATETIME] else [])
    ++ (if 0 < c.ifd1_tagcount then [TIFF_TAG_EXIF_IFD] else [])
    ++ (if f.datetime.isSome then [TIFF_TAG_TZ_OFFSET] else [])

/-- The tag ids of the 12-byte entries of IFD1, in the order
`jpgutl_exif_writeifd1` emits them. -/
def ifd1_tags (f : ExifFields) (c : ExifCounts) : List Nat :=
  if 0 < c.ifd1_tagcount then
    [EXIF_TAG_EXIF_VERSION]
      ++ (if f.datetime.isSome then [EXIF_TAG_ORIGINAL_DATETIME] else [])
      ++ (if f.box.isSome then [EXIF_TAG_SUBJECT_AREA] else [])
      ++ (if f.subtime.isSome then [EXIF_TAG_ORIGINAL_DATETIME_SS] else [])
  else []

/-- Length of an optional string field (`strlen`, 0 when absent): proof
accounting helper. -/
def optLen (o : Option (List Nat)) : Nat :=
  match o with
  | some l => l.length
  | none => 0

/-- Number of directory bytes `jpgutl_exif_writeifd0` advances `buf` by:
tag count (2) + 12 per emitted entry + next-IFD offset (4). -/
def ifd0DirB (f : ExifFields) (c : ExifCounts) : Nat :=
  6 + (if f.description.isSome then 12 else 0)
    + (if f.datetime.isSome then 24 else 0)
    + (if 0 < c.ifd1_tagcount then 12 else 0)

/-- Upper bound on the out-of-line bytes `jpgutl_exif_writeifd0` consumes,
matching the `datasize` budget of the inventory pass. -/
def ifd0DataB (f : ExifFields) : Nat :=
  (if f.description.isSome then 5 + optLen f.description else 0)
    + (if f.datetime.isSome then 5 + optLen f.datetime else 0)

/-- Number of directory bytes `jpgutl_exif_writeifd1` advances `buf` by. -/
def ifd1DirB (f : ExifFields) (c : ExifCounts) : Nat :=
  if 0 < c.ifd1_tagcount then
    18 + (if f.datetime.isSome then 12 else 0)
      + (if f.box.isSome then 12 else 0)
      + (if f.subtime.isSome then 12 else 0)
  else 0

/-- Upper bound on the out-of-line bytes `jpgutl_exif_writeifd1` consumes. -/
def ifd1DataB (f : ExifFields) (c : ExifCounts) : Nat :=
  if 0 < c.ifd1_tagcount then
    (if f.datetime.isSome then 5 + optLen f.datetime else 0)
      + (if f.box.isSome then 8 else 0)
      + (if f.subtime.isSome then 5 + optLen f.subtime else 0)
  else 0

/-! ### The timestamp formatting of `jpgutl_exif_date` -/

/-- ASCII decimal digits of `n` (`Nat.toDigits` renders base-10 without
leading zeros, as `%d` does for non-negative values). -/
def decDigits (n : Nat) : List Nat :=
  (Nat.toDigits 10 n).map Char.toNat

/-- `%0wd` for a non-negative value: pad with ASCII `'0'` (48) to width `w`. -/
def fmtPad (w n : Nat) : List Nat :=
  List.replicate (w - (decDigits n).length) 48 ++ decDigits n

/-- The `"%04d:%02d:%02d %02d:%02d:%02d"` format of `jpgutl_exif_date`,
applied to the already-adjusted calendar values it prints
(`tm_year + 1900`, `tm_mon + 1`, `tm_mday`, `tm_hour`, `tm_min`,
`tm_sec`). -/
def jpgutl_exif_date_fmt (year mon mday hour min sec : Nat) : List Nat :=
  fmtPad 4 year ++ [58] ++ fmtPad 2 mon ++ [58] ++ fmtPad 2 mday ++ [32]
    ++ fmtPad 2 hour ++ [58] ++ fmtPad 2 min ++ [58] ++ fmtPad 2 sec

/-- The `datetime` string `jpgutl_exif_date` stores:
`snprintf(datetime, 22, "%.21s", tmpbuf)` keeps at most the first 21
bytes of the formatted string. -/
def jpgutl_exif_datetime (year mon mday hour min sec : Nat) : List Nat :=
  (jpgutl_exif_date_fmt year mon mday hour min sec).take 21

/-! ### The decode path: `jpgutl_emit_message` and `jpgutl_decode_jpeg`

The libjpeg collaborator is modelled as the data it hands back to this
module: the reported output dimensions, the decompressed scanlines, the
stream of `emit_message` calls it makes during the decode, and whether it
signals a fatal error (`error_exit` / `longjmp`) while reading the header.
Writes into the caller's `img_out` plane buffer are recorded as
`(offset, value)` pairs relative to `img_out`. -/

/-- `JWRN_EXTRANEOUS_DATA` from jerror.h: an external library constant;
only its identity (compared against a message's code) matters here. -/
def JWRN_EXTRANEOUS_DATA : Nat := 120

/-- `jpgutl_emit_message`: count the message iff its code is not
`JWRN_EXTRANEOUS_DATA` and its level is negative. -/
def jpgutl_emit_message (warning_seen : Nat) (msg_code : Nat)
    (msg_level : Int) : Nat :=
  if msg_code ≠ JWRN_EXTRANEOUS_DATA ∧ msg_level < 0 then warning_seen + 1
  else warning_seen

/-- The total warning count of one decode: `jerr.warning_seen` starts at 0
and each `emit_message` call from the codec updates it. -/
def jpgutl_warning_count (ms : List (Nat × Int)) : Nat :=
  ms.foldl (fun n m => jpgutl_emit_message n m.1 m.2) 0

/-- The decompression session data the codec collaborator exposes. -/
structure CodecDec where
  output_width : Nat
  output_height : Nat
  /-- `scanline r i`: byte `i` of decompressed row `r` (interleaved
  3-component YCbCr samples, `wline` in the source). -/
  scanline : Nat → Nat → Nat
  /-- the `(msg_code, msg_level)` of each `emit_message` call the codec
  makes during this decode -/
  messages : List (Nat × Int)
  /-- the codec signalled `error_exit` while reading the header -/
  fatal : Bool

/-- One iteration of the demultiplexing loop body
(`for (i = 0; i < width*3; i += 3)`): luma on every column, chroma on the
columns where `i & 1` (i.e. every second emitted column). -/
def jpgutl_decode_row (width : Nat) (wline : Nat → Nat)
    (ybase cbbase crbase : Nat) : List (Nat × Nat) :=
  (List.range width).foldl (fun ws k =>
    let i := 3 * k
    let ws := ws ++ [(ybase + i / 3, wline i)]
    if i % 2 = 1 then
      ws ++ [(cbbase + i / 3 / 2, wline (i + 1)),
             (crbase + i / 3 / 2, wline (i + 2))]
    else ws) []

/-- The scanline loop of `jpgutl_decode_jpeg`: `img_y` advances by
`output_width` every row; `img_cb`/`img_cr` advance by `output_width / 2`
after every second row (`offset_y++ & 1`, with `offset_y` a `u_char`). -/
def jpgutl_decode_rows (d : CodecDec) : List (Nat × Nat) :=
  ((List.range d.output_height).foldl (fun st row =>
    let ws := st.1 ++ jpgutl_decode_row d.output_width (d.scanline row)
      st.2.1 st.2.2.1 st.2.2.2.1
    let offset_y := st.2.2.2.2
    if offset_y % 2 = 1 then
      (ws, st.2.1 + d.output_width, st.2.2.1 + d.output_width / 2,
       st.2.2.2.1 + d.output_width / 2, (offset_y + 1) % 256)
    else
      (ws, st.2.1 + d.output_width, st.2.2.1, st.2.2.2.1,
       (offset_y + 1) % 256))
    ([], 0, d.output_width * d.output_height,
     d.output_width * d.output_height
       + d.output_width * d.output_height / 4, 0)).1

/-- `jpgutl_decode_jpeg`: fatal codec errors and invalid or mismatched
dimensions fail with -1 before any plane byte is written; otherwise the
scanlines are demultiplexed and the decode fails anyway when more than two
counted warnings accumulated. -/
def jpgutl_decode_jpeg (d : CodecDec) (width height : Nat) :
    Int × List (Nat × Nat) :=
  if d.fatal then (-1, [])
  else if d.output_width = 0 ∨ d.output_height = 0 then (-1, [])
  else if d.output_width ≠ width ∨ d.output_height ≠ height then (-1, [])
  else
    let ws := jpgutl_decode_rows d
    if 2 < jpgutl_warning_count d.messages then (-1, ws) else (0, ws)

/-! ### The encode-side row grouping of `jpgutl_put_yuv420p`

The three row-pointer arrays `y[16]`, `cb[16]`, `cr[16]` are modelled as
lists of 16 entries, each entry `some o` for a pointer to offset `o` of
`input_image` and `none` for a null pointer (the literal `0x00` the source
assigns in the padding branch). -/

/-- One iteration of the outer row-group loop body (lines 913–928, minus the
codec call): for each `i < 16`, a row inside the image gets its plane
offsets; a row past the image gets `y[i] = cb[i] = cr[i] = 0x00`. -/
def jpgutl_put_yuv420p_group (width height j : Nat)
    (st : List (Option Nat) × List (Option Nat) × List (Option Nat)) :
    List (Option Nat) × List (Option Nat) × List (Option Nat) :=
  (List.range 16).foldl (fun st i =>
    let y := st.1
    let cb := st.2.1
    let cr := st.2.2
    if width * (i + j) < width * height then
      let y := y.set i (some (width * (i + j)))
      if i % 2 = 0 then
        (y, cb.set (i / 2) (some (width * height + width / 2 * ((i + j) / 2))),
         cr.set (i / 2) (some (width * height + width * height / 4
           + width / 2 * ((i + j) / 2))))
      else (y, cb, cr)
    else
      (y.set i none, cb.set i none, cr.set i none)) st

/-- The full row-group loop `for (j = 0; j < height; j += 16)`, started from
arbitrary previous contents `st0` of the (uninitialized) stack arrays. -/
def jpgutl_put_yuv420p_rows (width height : Nat)
    (st0 : List (Option Nat) × List (Option Nat) × List (Option Nat)) :
    List (Option Nat) × List (Option Nat) × List (Option Nat) :=
  ((List.range ((height + 15) / 16)).map (· * 16)).foldl
    (fun st j => jpgutl_put_yuv420p_group width height j st) st0

/-- A stand-in for the garbage initially in the stack arrays: 16 non-null
entries (their value is irrelevant to the theorems, which only inspect
entries the loop explicitly assigns). -/
def yuvInit : List (Option Nat) := List.replicate 16 (some 0)

/-! ### The struct layout behind the `memset` in `jpgutl_exif`

`jpgutl_exif` clears the freshly allocated struct with
`memset(exif_info, 0, sizeof(sizeof(ctx_exif_info)))`.  The inner `sizeof`
yields a `size_t` value, so the outer one is `sizeof(size_t)`.  The layout
below is the standard LP64 SysV layout of `ctx_exif_info` (8-byte pointers,
4-byte `uint`, glibc `struct tm` of 56 bytes, `struct tiff_writing` of
24 bytes). -/

/-- Align `off` up to a multiple of `a`. -/
def alignup (off a : Nat) : Nat := (off + a - 1) / a * a

/-- Field offsets and total size of a struct from the `(size, alignment)`
pairs of its fields (standard C layout). -/
def structLayout (fields : List (Nat × Nat)) (structAlign : Nat) :
    List Nat × Nat :=
  let r := fields.foldl (fun st f =>
    let o := alignup st.2 f.2
    (st.1 ++ [o], o + f.1)) ([], 0)
  (r.1, alignup r.2 structAlign)

/-- `(size, alignment)` of the fields of `ctx_exif_info`, in declaration
order: `cam`, `ts_in1`, `box` (pointers), `timestamp_tm` (`struct tm`),
`description`, `datetime`, `subtime` (pointers), `ifd0_tagcount`,
`ifd1_tagcount`, `datasize`, `ifds_size` (`uint`), `writing`
(`struct tiff_writing`). -/
def ctx_exif_info_fields : List (Nat × Nat) :=
  [(8, 8), (8, 8), (8, 8), (56, 8), (8, 8), (8, 8), (8, 8),
   (4, 4), (4, 4), (4, 4), (4, 4), (24, 8)]

def ctx_exif_info_offsets : List Nat :=
  (structLayout ctx_exif_info_fields 8).1

def sizeof_ctx_exif_info : Nat :=
  (structLayout ctx_exif_info_fields 8).2

def sizeof_size_t : Nat := 8

/-- The length argument of the `memset`:
`sizeof(sizeof(ctx_exif_info)) = sizeof(size_t)`. -/
def jpgutl_exif_memset_len : Nat := sizeof_size_t

def offsetof_ifd0_tagcount : Nat := ctx_exif_info_offsets.getD 7 0

def offsetof_ifd1_tagcount : Nat := ctx_exif_info_offsets.getD 8 0

def offsetof_datasize : Nat := ctx_exif_info_offsets.getD 9 0

def offsetof_ifds_size : Nat := ctx_exif_info_offsets.getD 10 0

/-! ### Concrete inputs used by counterexamples and witnesses -/

/-- The ASCII bytes of `"2024:03:07 13:05:09"` (19 characters). -/
def dtBytes : List Nat :=
  [50, 48, 50, 52, 58, 48, 51, 58, 48, 55, 32,
   49, 51, 58, 48, 53, 58, 48, 57]

/-- Fields with only the timestamp present. -/
def dtOnlyFields : ExifFields := ⟨none, some dtBytes, none, none, 0⟩

/-- Fields with a 4-character description and a region box (no timestamp,
no subsecond data): the out-of-line description payload is 5 bytes, which
leaves `data_offset` unaligned when `put_subjectarea` writes. -/
def descBoxFields : ExifFields :=
  ⟨some [97, 98, 99, 100], none, none, some ⟨1, 2, 3, 4⟩, 0⟩

/-- A decode session whose reported size differs from the declared one. -/
def mismatchCodec : CodecDec := ⟨8, 8, fun _ _ => 0, [], false⟩

/-- A decode session emitting 3 counted warnings (code 7 is not
`JWRN_EXTRANEOUS_DATA`; level -1 is a warning). -/
def warn3Codec : CodecDec :=
  ⟨4, 4, fun _ _ => 0, [(7, -1), (7, -1), (7, -1)], false⟩

/-- A decode session emitting exactly 2 counted warnings. -/
def warn2Codec : CodecDec :=
  ⟨4, 4, fun _ _ => 0, [(7, -1), (7, -1)], false⟩

/-! ## Proof infrastructure: where each serialization step writes -/

theorem memWrites_mem {data : List Nat} {off : Nat} {p : Nat × Nat}
    (hp : p ∈ memWrites off data) : off ≤ p.1 ∧ p.1 < off + data.length := by
  induction data generalizing off with
  | nil => simp [memWrites] at hp
  | cons b rest ih =>
    rw [memWrites] at hp
    rcases List.mem_cons.mp hp with h | h
    · subst h; simp
    · have := ih h
      simp only [List.length_cons]
      omega

theorem put_uint16_mem {off v : Nat} {p : Nat × Nat}
    (hp : p ∈ put_uint16 off v) : off ≤ p.1 ∧ p.1 < off + 2 := by
  simp only [put_uint16, List.mem_cons, List.not_mem_nil, or_false] at hp
  rcases hp with rfl | rfl <;> simp

theorem put_sint16_mem {off : Nat} {v : Int} {p : Nat × Nat}
    (hp : p ∈ put_sint16 off v) : off ≤ p.1 ∧ p.1 < off + 2 :=
  put_uint16_mem hp

theorem put_uint32_mem {off v : Nat} {p : Nat × Nat}
    (hp : p ∈ put_uint32 off v) : off ≤ p.1 ∧ p.1 < off + 4 := by
  simp only [put_uint32, List.mem_cons, List.not_mem_nil, or_false] at hp
  rcases hp with rfl | rfl | rfl | rfl <;> simp

theorem pad4_le (o : Nat) : pad4 o ≤ 3 := by
  unfold pad4; omega

theorem pad4_aligned (o : Nat) : (o + pad4 o) % 4 = 0 := by
  unfold pad4; omega

/-- The specification of one serialization step starting at cursor `w`:
it advances `buf` by exactly `dirB` bytes, moves `data_offset` forward by at
most `dataB`, all its writes land either in the directory bytes it owns or
in the out-of-line bytes it consumed, and all its out-of-line events start
at or after the free offset they observed (4-byte aligned when they come
from `put_direntry`). -/
structure PutSpecR (w : TiffWriting) (r : PutResult) (dirB dataB : Nat) : Prop where
  buf_eq : r.1.buf = w.buf + dirB
  d_mono : w.data_offset ≤ r.1.data_offset
  d_le : r.1.data_offset ≤ w.data_offset + dataB
  w_in : ∀ p ∈ r.2.1, (w.buf ≤ p.1 ∧ p.1 < r.1.buf) ∨
    (6 + w.data_offset ≤ p.1 ∧ p.1 < 6 + r.1.data_offset)
  e_ok : ∀ e ∈ r.2.2, e.before ≤ e.start ∧ (e.fromDirentry = true → e.start % 4 = 0)

theorem PutSpecR_of_eq {w : TiffWriting} {r : PutResult} {a b a' b' : Nat}
    (h : PutSpecR w r a b) (ha : a = a') (hb : b = b') : PutSpecR w r a' b' := by
  subst ha; subst hb; exact h

theorem seqPut_spec {w : TiffWriting} {s : PutResult} {op : TiffWriting → PutResult}
    {a b a' b' : Nat} (h1 : PutSpecR w s a b) (h2 : PutSpecR s.1 (op s.1) a' b') :
    PutSpecR w (seqPut s op) (a + a') (b + b') := by
  have hb1 := h1.buf_eq
  have hb2 := h2.buf_eq
  refine ⟨?_, ?_, ?_, ?_, ?_⟩
  · show (op s.1).1.buf = w.buf + (a + a')
    omega
  · exact le_trans h1.d_mono h2.d_mono
  · have := h1.d_le; have := h2.d_le
    show (op s.1).1.data_offset ≤ w.data_offset + (b + b')
    omega
  · intro p hp
    rcases List.mem_append.mp hp with h | h
    · rcases h1.w_in p h with ⟨hl, hr⟩ | ⟨hl, hr⟩
      · left
        have := h2.buf_eq
        constructor
        · exact hl
        · show p.1 < (op s.1).1.buf
          omega
      · right
        have := h2.d_mono
        constructor
        · exact hl
        · show p.1 < 6 + (op s.1).1.data_offset
          omega
    · rcases h2.w_in p h with ⟨hl, hr⟩ | ⟨hl, hr⟩
      · left
        constructor
        · omega
        · exact hr
      · right
        have := h1.d_mono
        constructor
        · omega
        · exact hr
  · intro e he
    rcases List.mem_append.mp he with h | h
    · exact h1.e_ok e h
    · exact h2.e_ok e h

theorem entry_count_spec (w : TiffWriting) (n : Nat) :
    PutSpecR w (entry_count w n) 2 0 := by
  refine ⟨rfl, le_refl _, Nat.le_add_right _ 0, ?_, by simp [entry_count]⟩
  intro p hp
  left
  exact put_uint16_mem hp

theorem entry_subifd_spec (w : TiffWriting) (n : Nat) :
    PutSpecR w (entry_subifd w n) 12 0 := by
  refine ⟨rfl, le_refl _, Nat.le_add_right _ 0, ?_, by simp [entry_subifd]⟩
  intro p hp
  left
  rcases List.mem_append.mp hp with h | h
  · have := memWrites_mem h
    have hl : exif_subifd_tag.length = 8 := rfl
    rw [hl] at this
    show w.buf ≤ p.1 ∧ p.1 < w.buf + 12
    omega
  · have := put_uint32_mem h
    show w.buf ≤ p.1 ∧ p.1 < w.buf + 12
    omega

theorem entry_tzoffset_spec (w : TiffWriting) (g : Int) :
    PutSpecR w (entry_tzoffset w g) 12 0 := by
  refine ⟨rfl, le_refl _, Nat.le_add_right _ 0, ?_, by simp [entry_tzoffset]⟩
  intro p hp
  left
  rcases List.mem_append.mp hp with h | h
  · have := memWrites_mem h
    have hl : exif_tzoffset_tag.length = 12 := rfl
    rw [hl] at this
    show w.buf ≤ p.1 ∧ p.1 < w.buf + 12
    omega
  · have := put_sint16_mem h
    show w.buf ≤ p.1 ∧ p.1 < w.buf + 12
    omega

theorem entry_nextifd_spec (w : TiffWriting) :
    PutSpecR w (entry_nextifd w) 4 0 := by
  refine ⟨rfl, le_refl _, Nat.le_add_right _ 0, ?_, by simp [entry_nextifd]⟩
  intro p hp
  left
  exact put_uint32_mem hp

theorem entry_ifd1_head_spec (w : TiffWriting) (n : Nat) :
    PutSpecR w (entry_ifd1_head w n) 14 0 := by
  refine ⟨rfl, le_refl _, Nat.le_add_right _ 0, ?_, by simp [entry_ifd1_head]⟩
  intro p hp
  left
  rcases List.mem_append.mp hp with h | h
  · have := put_uint16_mem h
    show w.buf ≤ p.1 ∧ p.1 < w.buf + 14
    omega
  · have := memWrites_mem h
    have hl : exif_version_tag.length = 12 := rfl
    rw [hl] at this
    show w.buf ≤ p.1 ∧ p.1 < w.buf + 14
    omega

theorem put_subjectarea_spec (into : TiffWriting) (box : Coord) :
    PutSpecR into (put_subjectarea into box) 12 8 := by
  refine ⟨rfl, by simp [put_subjectarea], by simp [put_subjectarea], ?_, ?_⟩
  · intro p hp
    simp only [put_subjectarea, List.append_assoc] at hp
    rcases List.mem_append.mp hp with h | hp
    · left
      have := put_uint16_mem h
      show into.buf ≤ p.1 ∧ p.1 < into.buf + 12
      omega
    rcases List.mem_append.mp hp with h | hp
    · left
      have := put_uint16_mem h
      show into.buf ≤ p.1 ∧ p.1 < into.buf + 12
      omega
    rcases List.mem_append.mp hp with h | hp
    · left
      have := put_uint32_mem h
      show into.buf ≤ p.1 ∧ p.1 < into.buf + 12
      omega
    rcases List.mem_append.mp hp with h | hp
    · left
      have := put_uint32_mem h
      show into.buf ≤ p.1 ∧ p.1 < into.buf + 12
      omega
    rcases List.mem_append.mp hp with h | hp
    · right
      have := put_uint16_mem h
      show 6 + into.data_offset ≤ p.1 ∧ p.1 < 6 + (into.data_offset + 8)
      omega
    rcases List.mem_append.mp hp with h | hp
    · right
      have := put_uint16_mem h
      show 6 + into.data_offset ≤ p.1 ∧ p.1 < 6 + (into.data_offset + 8)
      omega
    rcases List.mem_append.mp hp with h | h
    · right
      have := put_uint16_mem h
      show 6 + into.data_offset ≤ p.1 ∧ p.1 < 6 + (into.data_offset + 8)
      omega
    · right
      have := put_uint16_mem h
      show 6 + into.data_offset ≤ p.1 ∧ p.1 < 6 + (into.data_offset + 8)
      omega
  · intro e he
    simp only [put_subjectarea, List.mem_singleton] at he
    subst he
    exact ⟨le_refl _, by intro h; cases h⟩

theorem put_direntry_spec (into : TiffWriting) (data : List Nat) :
    (put_direntry into data).1.buf = into.buf ∧
    into.data_offset ≤ (put_direntry into data).1.data_offset ∧
    (put_direntry into data).1.data_offset ≤ into.data_offset + (data.length + 3) ∧
    (∀ p ∈ (put_direntry into data).2.1,
      (into.buf ≤ p.1 ∧ p.1 < into.buf + 4) ∨
      (6 + into.data_offset ≤ p.1 ∧ p.1 < 6 + (put_direntry into data).1.data_offset)) ∧
    (∀ e ∈ (put_direntry into data).2.2,
      e.before ≤ e.start ∧ (e.fromDirentry = true → e.start % 4 = 0)) := by
  have hpad := pad4_le into.data_offset
  have hal := pad4_aligned into.data_offset
  by_cases h : data.length ≤ 4
  · have he : put_direntry into data
        = (into, memWrites into.buf (data ++ List.replicate (4 - data.length) 0),
           ([] : List OolEvent)) := by
      rw [put_direntry, if_pos h]
    rw [he]
    refine ⟨rfl, le_refl _, Nat.le_add_right _ _, ?_, ?_⟩
    · intro p hp
      have hp' : p ∈ memWrites into.buf (data ++ List.replicate (4 - data.length) 0) := hp
      have hmem := memWrites_mem hp'
      have hlen : (data ++ List.replicate (4 - data.length) 0).length = 4 := by
        simp only [List.length_append, List.length_replicate]
        omega
      rw [hlen] at hmem
      exact Or.inl hmem
    · intro e he'
      exact absurd he' (List.not_mem_nil e)
  · have he : put_direntry into data
        = ({ into with data_offset := into.data_offset + pad4 into.data_offset + data.length },
           memWrites (6 + into.data_offset) (List.replicate (pad4 into.data_offset) 0)
             ++ put_uint32 into.buf (into.data_offset + pad4 into.data_offset)
             ++ memWrites (6 + (into.data_offset + pad4 into.data_offset)) data,
           [⟨true, into.data_offset, into.data_offset + pad4 into.data_offset⟩]) := by
      rw [put_direntry, if_neg h]
    rw [he]
    refine ⟨rfl, ?_, ?_, ?_, ?_⟩
    · show into.data_offset ≤ into.data_offset + pad4 into.data_offset + data.length
      omega
    · show into.data_offset + pad4 into.data_offset + data.length
        ≤ into.data_offset + (data.length + 3)
      omega
    · intro p hp
      have hp' : p ∈ memWrites (6 + into.data_offset)
            (List.replicate (pad4 into.data_offset) 0)
          ++ put_uint32 into.buf (into.data_offset + pad4 into.data_offset)
          ++ memWrites (6 + (into.data_offset + pad4 into.data_offset)) data := hp
      show (into.buf ≤ p.1 ∧ p.1 < into.buf + 4) ∨
        (6 + into.data_offset ≤ p.1 ∧
          p.1 < 6 + (into.data_offset + pad4 into.data_offset + data.length))
      rcases List.mem_append.mp hp' with hp'' | hp''
      · rcases List.mem_append.mp hp'' with hm | hm
        · have := memWrites_mem hm
          rw [List.length_replicate] at this
          right
          omega
        · have := put_uint32_mem hm
          left
          omega
      · have := memWrites_mem hp''
        right
        omega
    · intro e he'
      have he'' : e ∈ [OolEvent.mk true into.data_offset
          (into.data_offset + pad4 into.data_offset)] := he'
      rcases List.mem_singleton.mp he'' with rfl
      exact ⟨Nat.le_add_right _ _, fun _ => hal⟩

theorem put_stringentry_spec (into : TiffWriting) (tag : Nat) (str : List Nat)
    (nul : Bool) :
    PutSpecR into (put_stringentry into tag str nul) 12 (5 + str.length) := by
  have hdl : (str ++ if nul then [0] else []).length ≤ str.length + 1 := by
    cases nul <;> simp
  have hdg : str.length ≤ (str ++ if nul then [0] else []).length := by
    cases nul <;> simp
  obtain ⟨hd1, hd2, hd3, hd4, hd5⟩ :=
    put_direntry_spec { into with buf := into.buf + 8 }
      (str ++ if nul then [0] else [])
  have hcb : ({ into with buf := into.buf + 8 } : TiffWriting).buf = into.buf + 8 := rfl
  have hcd : ({ into with buf := into.buf + 8 } : TiffWriting).data_offset
      = into.data_offset := rfl
  rw [hcb] at hd1
  rw [hcd] at hd2 hd3 hd4
  refine ⟨?_, ?_, ?_, ?_, ?_⟩
  · show (put_direntry { into with buf := into.buf + 8 }
      (str ++ if nul then [0] else [])).1.buf + 4 = into.buf + 12
    omega
  · exact hd2
  · show (put_direntry { into with buf := into.buf + 8 }
      (str ++ if nul then [0] else [])).1.data_offset
      ≤ into.data_offset + (5 + str.length)
    omega
  · intro p hp
    have hbuf : (put_stringentry into tag str nul).1.buf = into.buf + 12 := by
      show (put_direntry { into with buf := into.buf + 8 }
        (str ++ if nul then [0] else [])).1.buf + 4 = into.buf + 12
      omega
    rw [hbuf]
    have hp' : p ∈ put_uint16 into.buf tag
        ++ put_uint16 (into.buf + 2) TIFF_TYPE_ASCII
        ++ put_uint32 (into.buf + 4) (str ++ if nul then [0] else []).length
        ++ (put_direntry { into with buf := into.buf + 8 }
            (str ++ if nul then [0] else [])).2.1 := hp
    rcases List.mem_append.mp hp' with hp'' | hp''
    · rcases List.mem_append.mp hp'' with hp3 | hp3
      · rcases List.mem_append.mp hp3 with hm | hm
        · have := put_uint16_mem hm
          left
          omega
        · have := put_uint16_mem hm
          left
          omega
      · have := put_uint32_mem hp3
        left
        omega
    · rcases hd4 p hp'' with ⟨hl, hr⟩ | ⟨hl, hr⟩
      · left
        constructor
        · omega
        · omega
      · right
        exact ⟨hl, hr⟩
  · exact hd5

theorem jpgutl_exif_writeifd0_spec (f : ExifFields) (c : ExifCounts)
    (w : TiffWriting) :
    PutSpecR w (jpgutl_exif_writeifd0 f c w) (ifd0DirB f c) (ifd0DataB f) := by
  obtain ⟨desc, dt, st, box, g⟩ := f
  have h0 := entry_count_spec w c.ifd0_tagcount
  by_cases h1 : 0 < c.ifd1_tagcount <;> cases desc <;> cases dt <;>
    simp only [jpgutl_exif_writeifd0, ifd0DirB, ifd0DataB, optLen, h1, if_true, if_false,
      Option.isSome_some, Option.isSome_none, ite_true, ite_false]
  · exact PutSpecR_of_eq
      (seqPut_spec (seqPut_spec h0 (entry_subifd_spec _ _)) (entry_nextifd_spec _))
      (by simp) (by simp)
  · exact PutSpecR_of_eq
      (seqPut_spec (seqPut_spec (seqPut_spec (seqPut_spec h0
        (put_stringentry_spec _ _ _ _)) (entry_subifd_spec _ _))
        (entry_tzoffset_spec _ _)) (entry_nextifd_spec _))
      (by simp) (by simp)
  · exact PutSpecR_of_eq
      (seqPut_spec (seqPut_spec (seqPut_spec h0 (put_stringentry_spec _ _ _ _))
        (entry_subifd_spec _ _)) (entry_nextifd_spec _))
      (by simp) (by simp)
  · exact PutSpecR_of_eq
      (seqPut_spec (seqPut_spec (seqPut_spec (seqPut_spec (seqPut_spec h0
        (put_stringentry_spec _ _ _ _)) (put_stringentry_spec _ _ _ _))
        (entry_subifd_spec _ _)) (entry_tzoffset_spec _ _)) (entry_nextifd_spec _))
      (by simp) (by simp [Nat.add_assoc])
  · exact PutSpecR_of_eq (seqPut_spec h0 (entry_nextifd_spec _)) (by simp) (by simp)
  · exact PutSpecR_of_eq
      (seqPut_spec (seqPut_spec (seqPut_spec h0 (put_stringentry_spec _ _ _ _))
        (entry_tzoffset_spec _ _)) (entry_nextifd_spec _))
      (by simp) (by simp)
  · exact PutSpecR_of_eq
      (seqPut_spec (seqPut_spec h0 (put_stringentry_spec _ _ _ _))
        (entry_nextifd_spec _))
      (by simp) (by simp)
  · exact PutSpecR_of_eq
      (seqPut_spec (seqPut_spec (seqPut_spec (seqPut_spec h0
        (put_stringentry_spec _ _ _ _)) (put_stringentry_spec _ _ _ _))
        (entry_tzoffset_spec _ _)) (entry_nextifd_spec _))
      (by simp) (by simp [Nat.add_assoc])

theorem jpgutl_exif_writeifd1_spec (f : ExifFields) (c : ExifCounts)
    (w : TiffWriting) :
    PutSpecR w (jpgutl_exif_writeifd1 f c w) (ifd1DirB f c) (ifd1DataB f c) := by
  obtain ⟨desc, dt, st, box, g⟩ := f
  by_cases h1 : 0 < c.ifd1_tagcount
  · have h0 := entry_ifd1_head_spec w c.ifd1_tagcount
    cases dt <;> cases box <;> cases st <;>
      simp only [jpgutl_exif_writeifd1, ifd1DirB, ifd1DataB, optLen, h1, if_true, if_false,
        Option.isSome_some, Option.isSome_none, ite_true, ite_false]
    · exact PutSpecR_of_eq (seqPut_spec h0 (entry_nextifd_spec _)) (by simp) (by simp)
    · exact PutSpecR_of_eq
        (seqPut_spec (seqPut_spec h0 (put_stringentry_spec _ _ _ _))
          (entry_nextifd_spec _))
        (by simp) (by simp)
    · exact PutSpecR_of_eq
        (seqPut_spec (seqPut_spec h0 (put_subjectarea_spec _ _)) (entry_nextifd_spec _))
        (by simp) (by simp)
    · exact PutSpecR_of_eq
        (seqPut_spec (seqPut_spec (seqPut_spec h0 (put_subjectarea_spec _ _))
          (put_stringentry_spec _ _ _ _)) (entry_nextifd_spec _))
        (by simp) (by simp)
    · exact PutSpecR_of_eq
        (seqPut_spec (seqPut_spec h0 (put_stringentry_spec _ _ _ _))
          (entry_nextifd_spec _))
        (by simp) (by simp)
    · exact PutSpecR_of_eq
        (seqPut_spec (seqPut_spec (seqPut_spec h0 (put_stringentry_spec _ _ _ _))
          (put_stringentry_spec _ _ _ _)) (entry_nextifd_spec _))
        (by simp) (by simp [Nat.add_assoc])
    · exact PutSpecR_of_eq
        (seqPut_spec (seqPut_spec (seqPut_spec h0 (put_stringentry_spec _ _ _ _))
          (put_subjectarea_spec _ _)) (entry_nextifd_spec _))
        (by simp) (by simp [Nat.add_assoc])
    · exact PutSpecR_of_eq
        (seqPut_spec (seqPut_spec (seqPut_spec (seqPut_spec h0
          (put_stringentry_spec _ _ _ _)) (put_subjectarea_spec _ _))
          (put_stringentry_spec _ _ _ _)) (entry_nextifd_spec _))
        (by simp) (by simp [Nat.add_assoc])
  · simp only [jpgutl_exif_writeifd1, ifd1DirB, ifd1DataB, h1, if_false, ite_false]
    exact ⟨rfl, le_refl _, Nat.le_add_right _ 0,
      fun p hp => absurd hp (List.not_mem_nil p),
      fun e he => absurd he (List.not_mem_nil e)⟩

theorem counts_bound (f : ExifFields) :
    ((jpgutl_exif_tags f exifZero).ifds_size ≠ 0 →
      ifd0DirB f (jpgutl_exif_tags f exifZero)
          + ifd1DirB f (jpgutl_exif_tags f exifZero)
        ≤ (jpgutl_exif_tags f exifZero).ifds_size) ∧
    ifd0DataB f + ifd1DataB f (jpgutl_exif_tags f exifZero)
      ≤ (jpgutl_exif_tags f exifZero).datasize := by
  obtain ⟨desc, dt, st, box, g⟩ := f
  cases desc <;> cases dt <;> cases st <;> cases box <;>
    simp [jpgutl_exif_tags, exifZero, ifd0DirB, ifd1DirB, ifd0DataB, ifd1DataB,
      optLen] <;>
    omega

theorem exif_master (f : ExifFields) :
    (jpgutl_exif exifZero f).marker_len
        ≤ jpgutl_exif_buffer_size (jpgutl_exif_tags f exifZero) ∧
    (∀ p ∈ (jpgutl_exif exifZero f).writes,
        p.1 < jpgutl_exif_buffer_size (jpgutl_exif_tags f exifZero)) ∧
    (∀ e ∈ (jpgutl_exif exifZero f).events,
        e.before ≤ e.start ∧ (e.fromDirentry = true → e.start % 4 = 0)) := by
  obtain ⟨hdir, hdata⟩ := counts_bound f
  have hbuf : jpgutl_exif_buffer_size (jpgutl_exif_tags f exifZero)
      = 14 + (jpgutl_exif_tags f exifZero).ifds_size
        + (jpgutl_exif_tags f exifZero).datasize := rfl
  by_cases hz : (jpgutl_exif_tags f exifZero).ifds_size = 0
  · have he : jpgutl_exif exifZero f = ⟨0, [], []⟩ := by
      simp only [jpgutl_exif]
      rw [if_pos hz]
    rw [he]
    exact ⟨Nat.zero_le _, fun p hp => absurd hp (List.not_mem_nil p),
      fun e hev => absurd hev (List.not_mem_nil e)⟩
  · have h0 := jpgutl_exif_writeifd0_spec f (jpgutl_exif_tags f exifZero)
      ⟨14, 8 + (jpgutl_exif_tags f exifZero).ifds_size⟩
    have h1 := jpgutl_exif_writeifd1_spec f (jpgutl_exif_tags f exifZero)
      (jpgutl_exif_writeifd0 f (jpgutl_exif_tags f exifZero)
        ⟨14, 8 + (jpgutl_exif_tags f exifZero).ifds_size⟩).1
    have hs := seqPut_spec h0 h1
    have hres : jpgutl_exif exifZero f =
        ⟨(seqPut (jpgutl_exif_writeifd0 f (jpgutl_exif_tags f exifZero)
            ⟨14, 8 + (jpgutl_exif_tags f exifZero).ifds_size⟩)
            (jpgutl_exif_writeifd1 f (jpgutl_exif_tags f exifZero))).1.data_offset + 6,
         memWrites 0 exif_marker_start
           ++ (seqPut (jpgutl_exif_writeifd0 f (jpgutl_exif_tags f exifZero)
                ⟨14, 8 + (jpgutl_exif_tags f exifZero).ifds_size⟩)
                (jpgutl_exif_writeifd1 f (jpgutl_exif_tags f exifZero))).2.1,
         (seqPut (jpgutl_exif_writeifd0 f (jpgutl_exif_tags f exifZero)
            ⟨14, 8 + (jpgutl_exif_tags f exifZero).ifds_size⟩)
            (jpgutl_exif_writeifd1 f (jpgutl_exif_tags f exifZero))).2.2⟩ := by
      simp only [jpgutl_exif]
      rw [if_neg hz]
    rw [hres]
    set s := seqPut (jpgutl_exif_writeifd0 f (jpgutl_exif_tags f exifZero)
        ⟨14, 8 + (jpgutl_exif_tags f exifZero).ifds_size⟩)
        (jpgutl_exif_writeifd1 f (jpgutl_exif_tags f exifZero)) with hsd
    have hb_eq := hs.buf_eq
    have hd_le := hs.d_le
    have ew0b : (⟨14, 8 + (jpgutl_exif_tags f exifZero).ifds_size⟩ :
        TiffWriting).buf = 14 := rfl
    have ew0d : (⟨14, 8 + (jpgutl_exif_tags f exifZero).ifds_size⟩ :
        TiffWriting).data_offset = 8 + (jpgutl_exif_tags f exifZero).ifds_size := rfl
    rw [ew0b] at hb_eq
    rw [ew0d] at hd_le
    refine ⟨?_, ?_, ?_⟩
    · show s.1.data_offset + 6
        ≤ jpgutl_exif_buffer_size (jpgutl_exif_tags f exifZero)
      rw [hbuf]
      omega
    · intro p hp
      have hp' : p ∈ memWrites 0 exif_marker_start ++ s.2.1 := hp
      show p.1 < jpgutl_exif_buffer_size (jpgutl_exif_tags f exifZero)
      rw [hbuf]
      rcases List.mem_append.mp hp' with hm | hm
      · have := memWrites_mem hm
        have hlen : exif_marker_start.length = 14 := rfl
        rw [hlen] at this
        omega
      · rcases hs.w_in p hm with ⟨hl, hr⟩ | ⟨hl, hr⟩
        · rw [ew0b] at hl
          have := hdir hz
          omega
        · rw [ew0d] at hl
          omega
    · intro e hev
      have hev' : e ∈ s.2.2 := hev
      exact hs.e_ok e hev'

/-! ## The claims -/

/-- C1 (counterexample): with only the timestamp present, the inventory
size `buffer_size = 14 + ifds_size + datasize` (134) does not equal the
returned marker length `marker_len = final data_offset + 6` (126): the
`datasize` budget `2 * (5 + strlen(datetime))` over-provisions the two
20-byte datetime payloads. -/
theorem C1_counterexample :
    ¬ (jpgutl_exif_buffer_size (jpgutl_exif_tags dtOnlyFields exifZero)
      = (jpgutl_exif exifZero dtOnlyFields).marker_len) := by decide

/-- C1 (amended): the inventory pass's computed size is an upper bound on
the serialized marker length: `marker_len ≤ buffer_size` for every
combination of present fields and all string contents (counters starting
from zero). -/
theorem C1_inventory_bounds_marker_len (f : ExifFields) :
    (jpgutl_exif exifZero f).marker_len
      ≤ jpgutl_exif_buffer_size (jpgutl_exif_tags f exifZero) :=
  (exif_master f).1

/-- C2 (counterexample): with a 4-character description (5-byte out-of-line
payload) and a region box but no timestamp, `put_subjectarea` writes its
out-of-line payload at offset 73, which is not 4-byte aligned: the claim
that every out-of-line write is 4-byte aligned is false. -/
theorem C2_counterexample :
    ((jpgutl_exif exifZero descBoxFields).events.all
      fun e => decide (e.start % 4 = 0)) = false := by decide

/-- C2 (amended): every out-of-line payload write starts at or after the
cursor's current free offset, and the writes performed by `put_direntry`
are additionally 4-byte aligned; `put_subjectarea`'s write (at exactly the
free offset) need not be aligned. -/
theorem C2_ool_at_or_after_free_offset (f : ExifFields) :
    ((jpgutl_exif exifZero f).events.all
      fun e => decide (e.before ≤ e.start)
        && (!e.fromDirentry || decide (e.start % 4 = 0))) = true := by
  rw [List.all_eq_true]
  intro e he
  obtain ⟨h1, h2⟩ := (exif_master f).2.2 e he
  cases hfd : e.fromDirentry <;> simp [h1, hfd, h2]

/-- C3: in every marker the encoder produces, the 12-byte tag entries of
IFD0 and of IFD1 (when emitted) appear in strictly ascending numeric
tag-id order. -/
theorem C3_tags_strictly_ascending (f : ExifFields) :
    List.Chain' (· < ·) (ifd0_tags f (jpgutl_exif_tags f exifZero)) ∧
    List.Chain' (· < ·) (ifd1_tags f (jpgutl_exif_tags f exifZero)) := by
  obtain ⟨desc, dt, st, box, g⟩ := f
  cases desc <;> cases dt <;> cases st <;> cases box <;>
    simp [ifd0_tags, ifd1_tags, jpgutl_exif_tags, exifZero] <;>
    decide

/-- C4: with no optional field present, `jpgutl_exif` returns length 0 (not
an error) and its caller `put_jpeg_exif` emits no APP1 marker. -/
theorem C4_no_fields_no_marker (g : Int) :
    (jpgutl_exif exifZero ⟨none, none, none, none, g⟩).marker_len = 0 ∧
    put_jpeg_exif exifZero ⟨none, none, none, none, g⟩ = none := by
  constructor <;> rfl

/-- C5 (counterexample): the serialized DateTime payload for timestamp
components (2024,3,7,13,5,9) is the 19 ASCII characters plus a NUL —
20 bytes, not the claimed 21. -/
theorem C5_counterexample :
    ¬ ((jpgutl_exif_datetime 2024 3 7 13 5 9 ++ [0]).length = 21) := by decide

/-- C5 (amended): for timestamp components (2024,3,7,13,5,9) the DateTime
string is exactly the ASCII bytes of `"2024:03:07 13:05:09"`, and the
directory entry `put_stringentry` emits for tag 0x0132 stores those bytes
followed by a NUL out-of-line — a 20-byte payload. -/
theorem C5_datetime_serialization :
    jpgutl_exif_datetime 2024 3 7 13 5 9 = dtBytes ∧
    (dtBytes ++ [0]).length = 20 ∧
    (put_stringentry ⟨14, 80⟩ TIFF_TAG_DATETIME
        (jpgutl_exif_datetime 2024 3 7 13 5 9) true).2.1
      = put_uint16 14 TIFF_TAG_DATETIME ++ put_uint16 16 TIFF_TYPE_ASCII
        ++ put_uint32 18 20 ++ (put_uint32 22 80 ++ memWrites 86 (dtBytes ++ [0])) := by
  refine ⟨by decide, by decide, by decide⟩

/-- C6: if the codec-reported output size differs from the declared
width/height, the decode fails with -1 before any demultiplexing and no
byte of the output plane buffer is written. -/
theorem C6_dimension_mismatch_fails_clean (d : CodecDec) (width height : Nat)
    (h : d.output_width ≠ width ∨ d.output_height ≠ height) :
    jpgutl_decode_jpeg d width height = (-1, []) := by
  unfold jpgutl_decode_jpeg
  by_cases hf : d.fatal = true
  · rw [if_pos hf]
  · rw [if_neg hf]
    by_cases h0 : d.output_width = 0 ∨ d.output_height = 0
    · rw [if_pos h0]
    · rw [if_neg h0, if_pos h]

/-- Witness for C6 at a concrete mismatching session. -/
theorem C6_witness :
    (mismatchCodec.output_width ≠ 4 ∨ mismatchCodec.output_height ≠ 4) ∧
    jpgutl_decode_jpeg mismatchCodec 4 4 = (-1, []) :=
  ⟨by decide, C6_dimension_mismatch_fails_clean mismatchCodec 4 4 (by decide)⟩

/-- C7: within one decode, counted warnings accumulate from 0 via
`jpgutl_emit_message`; the decode returns -1 exactly when the accumulated
count exceeds 2, and 0 otherwise (absent fatal errors and dimension
problems). -/
theorem C7_warning_count_threshold (d : CodecDec) (width height : Nat)
    (hf : d.fatal = false) (hw : d.output_width = width)
    (hh : d.output_height = height) (hw0 : d.output_width ≠ 0)
    (hh0 : d.output_height ≠ 0) :
    (jpgutl_decode_jpeg d width height).1
      = if 2 < jpgutl_warning_count d.messages then -1 else 0 := by
  unfold jpgutl_decode_jpeg
  rw [if_neg (by rw [hf]; exact Bool.false_ne_true)]
  rw [if_neg (not_or.mpr ⟨hw0, hh0⟩)]
  rw [if_neg (not_or.mpr ⟨not_not_intro hw, not_not_intro hh⟩)]
  by_cases hc : 2 < jpgutl_warning_count d.messages
  · rw [if_pos hc, if_pos hc]
  · rw [if_neg hc, if_neg hc]

/-- Witness for C7: a session emitting 3 counted warnings fails, one
emitting exactly 2 succeeds. -/
theorem C7_witness :
    (jpgutl_decode_jpeg warn3Codec 4 4).1 = -1 ∧
    (jpgutl_decode_jpeg warn2Codec 4 4).1 = 0 := by
  constructor
  · rw [C7_warning_count_threshold warn3Codec 4 4 rfl rfl rfl (by decide) (by decide)]
    decide
  · rw [C7_warning_count_threshold warn2Codec 4 4 rfl rfl rfl (by decide) (by decide)]
    decide

/-- C8 (the code at the failing input): for width 32, height 24 (not a
multiple of 16), the final row group's padding entries — rows 8–15 of the
group starting at row 16 — are the null pointer (`y[i] = cb[i] = cr[i] =
0x00`), not pointers to zero-valued pixel rows as the code's own comment
("we'll just pad those last bytes with zeros") intends. -/
theorem C8_padding_rows_are_null :
    (jpgutl_put_yuv420p_rows 32 24 (yuvInit, yuvInit, yuvInit)).1.getD 8 (some 0)
        = none ∧
    (jpgutl_put_yuv420p_rows 32 24 (yuvInit, yuvInit, yuvInit)).2.1.getD 8 (some 0)
        = none ∧
    (jpgutl_put_yuv420p_rows 32 24 (yuvInit, yuvInit, yuvInit)).2.2.getD 8 (some 0)
        = none := by
  refine ⟨by decide, by decide, by decide⟩

/-- C9: the `memset` length `sizeof(sizeof(ctx_exif_info))` is
`sizeof(size_t)` = 8, strictly less than `sizeof(ctx_exif_info)` (144 under
LP64), and all four counter fields lie at offsets ≥ 8, so the cleared
prefix never reaches them. -/
theorem C9_memset_clears_too_little :
    jpgutl_exif_memset_len = sizeof_size_t ∧
    jpgutl_exif_memset_len < sizeof_ctx_exif_info ∧
    jpgutl_exif_memset_len ≤ offsetof_ifd0_tagcount ∧
    jpgutl_exif_memset_len ≤ offsetof_ifd1_tagcount ∧
    jpgutl_exif_memset_len ≤ offsetof_datasize ∧
    jpgutl_exif_memset_len ≤ offsetof_ifds_size := by decide

/-- C10: with the counters starting from zero, every byte the
serialization pass writes lies inside the allocated `buffer_size` bytes,
`marker_len ≤ buffer_size`, and the inequality can be strict (it is for a
timestamp-only marker, whose `datasize` over-budgets the NUL/alignment
overhead). -/
theorem C10_writes_within_buffer (f : ExifFields) :
    ((jpgutl_exif exifZero f).writes.all
        fun p => decide (p.1 < jpgutl_exif_buffer_size (jpgutl_exif_tags f exifZero)))
      = true ∧
    (jpgutl_exif exifZero f).marker_len
      ≤ jpgutl_exif_buffer_size (jpgutl_exif_tags f exifZero) ∧
    (jpgutl_exif exifZero dtOnlyFields).marker_len
      < jpgutl_exif_buffer_size (jpgutl_exif_tags dtOnlyFields exifZero) := by
  refine ⟨?_, (exif_master f).1, by decide⟩
  rw [List.all_eq_true]
  intro p hp
  simpa using (exif_master f).2.1 p hp

end Jpegutils
